import Mathlib

/-!
# Shallow embedding of the rusty-spout wrapper (src/src/lib.rs)

The repository wraps a single opaque foreign `SPOUTLIBRARY` handle.  This file
embeds the wrapper faithfully:

* Rust byte strings (`&str` contents handed to `CString::new`) are `List Nat`
  of byte values; `CString::new` fails exactly when the bytes contain an
  embedded nul, mirroring `str_to_cstring!` and the inline matches.
* The foreign engine is an oracle (`Engine`): a record of response functions,
  one per return shape.  Every call into the engine is recorded as an
  `EngineCall` (entry-point name plus marshalled arguments) in a trace, so
  "performs no engine call" is `trace = []`.
* `RustySpout` is the wrapper state: `library : Option Nat` models
  `Option<*mut ffi::SPOUTLIBRARY>`.
* Fallible paths return `Outcome.err`; Rust panics (the `todo!()` bodies of
  `create_receiver`/`check_receiver`/`get_sender_info`, and the
  `max_length - 1` usize subtraction overflow when a caller passes capacity 0
  to `vec![1; max_length - 1]`) are `Outcome.panicked`.
* `usize as i32` (the unchecked cast in `write_memory_buffer`) is modelled by
  `wrapToI32`; `i32::try_from` (the checked `usize_to_c_int!` macro and the
  inline `try_into` in `read_memory_buffer`) by `i32TryFromUsize`.
* f64 return values are forwarded opaquely (modelled as engine-chosen `Int`
  bit patterns); no claim inspects them.
* Engine-filled output buffers: the oracle supplies the byte view the wrapper
  decodes after the call (`Engine.retBuf`); engine-owned returned C strings
  are `Engine.retPtrBytes` (`none` = null pointer, `some bs` = the bytes up to
  the terminator).
-/

/-- Byte strings crossing the foreign boundary. -/
abbrev Str := List Nat

/-- `FfiType` from lib.rs. -/
inductive FfiType where
  | CString
  | CStr
  | CInt
deriving DecidableEq, Repr

/-- `Error` from lib.rs (the wrapper's flat error taxonomy). -/
inductive Error where
  | NoHandle
  | FfiTypeInto (ffi_type : FfiType) (context : String)
  | FfiTypeFrom (ffi_type : FfiType) (context : String)
  | NullPtr
  | Unbindable
  | UnexpectedValue (context : String)
deriving DecidableEq, Repr

/-- `DxgiGpuPreference` from lib.rs. -/
inductive DxgiGpuPreference where
  | NotRegistered
  | Unspecified
  | MinimumPower
  | HighPerformance
deriving DecidableEq, Repr

/-- `impl TryInto<String> for DxgiGpuPreference` (lib.rs lines 66-81):
`NotRegistered` falls into the catch-all `_` arm and errors. -/
def tryIntoString : DxgiGpuPreference → Except Error String
  | .Unspecified => .ok "DXGI_GPU_PREFERENCE_UNSPECIFIED"
  | .MinimumPower => .ok "DXGI_GPU_PREFERENCE_MINIMUM_POWER"
  | .HighPerformance => .ok "DXGI_GPU_PREFERENCE_HIGH_PERFORMANCE"
  | .NotRegistered => .error (.UnexpectedValue "DxgiGpuPreference::try_into")

/-- `impl TryInto<i32> for DxgiGpuPreference` (lib.rs lines 83-97): all four
variants are mapped; the source's `_` arm is unreachable. -/
def tryIntoI32 : DxgiGpuPreference → Except Error Int
  | .NotRegistered => .ok (-1)
  | .Unspecified => .ok 0
  | .MinimumPower => .ok 1
  | .HighPerformance => .ok 2

/-- `impl TryFrom<i32> for DxgiGpuPreference` (lib.rs lines 99-113). -/
def tryFromI32 (value : Int) : Except Error DxgiGpuPreference :=
  if value = -1 then .ok .NotRegistered
  else if value = 0 then .ok .Unspecified
  else if value = 1 then .ok .MinimumPower
  else if value = 2 then .ok .HighPerformance
  else .error (.UnexpectedValue "DxgiGpuPreference::try_from")

/-- Index of the first nul byte of a byte string, if any
(the position `CString::new`'s `NulError` reports). -/
def firstNul : Str → Option Nat
  | [] => none
  | b :: rest => if b = 0 then some 0 else (firstNul rest).map (· + 1)

/-- The message `CString::new`'s `NulError` displays, as interpolated by the
`format!("{}: {e}", fn_name)` calls in lib.rs. -/
def nulErrMsg (i : Nat) : String :=
  ": nul byte found in provided data at position: " ++ toString i

/-- `CString::new` followed by use as a nul-terminated byte sequence: fails
with `FfiTypeInto CString` iff the bytes contain an embedded nul, mirroring
`str_to_cstring!` and the inline matches in lib.rs.  On success the marshalled
bytes are the input plus the terminator. -/
def cstringNew (fn_name : String) (s : Str) : Except Error Str :=
  match firstNul s with
  | some i => .error (.FfiTypeInto .CString (fn_name ++ nulErrMsg i))
  | none => .ok (s ++ [0])

/-- `CStr::from_bytes_with_nul` (the `buf_to_cstr!` macro and the inline match
in `read_memory_buffer`): requires exactly one nul, in final position.  The
source's context string uses `file!()`/`line!()`; modelled by a fixed tag. -/
def cstrFromBytesWithNul (buf : Str) : Except Error Str :=
  if firstNul buf = some (buf.length - 1) then .ok buf
  else .error (.FfiTypeInto .CStr "buf_to_cstr")

/-- RFC 3629 UTF-8 validity over bytes, as checked by `str::from_utf8`
(used by `CStr::to_str` / `CString::to_str`). -/
def contByte (c : Nat) : Bool := 0x80 ≤ c && c ≤ 0xBF

def isValidUtf8 : Str → Bool
  | [] => true
  | b :: r =>
    if b ≤ 0x7F then isValidUtf8 r
    else if 0xC2 ≤ b && b ≤ 0xDF then
      match r with
      | c :: r2 => contByte c && isValidUtf8 r2
      | [] => false
    else if b = 0xE0 then
      match r with
      | c :: c2 :: r2 => (0xA0 ≤ c && c ≤ 0xBF) && contByte c2 && isValidUtf8 r2
      | _ => false
    else if (0xE1 ≤ b && b ≤ 0xEC) || b = 0xEE || b = 0xEF then
      match r with
      | c :: c2 :: r2 => contByte c && contByte c2 && isValidUtf8 r2
      | _ => false
    else if b = 0xED then
      match r with
      | c :: c2 :: r2 => (0x80 ≤ c && c ≤ 0x9F) && contByte c2 && isValidUtf8 r2
      | _ => false
    else if b = 0xF0 then
      match r with
      | c :: c2 :: c3 :: r2 =>
        (0x90 ≤ c && c ≤ 0xBF) && contByte c2 && contByte c3 && isValidUtf8 r2
      | _ => false
    else if 0xF1 ≤ b && b ≤ 0xF3 then
      match r with
      | c :: c2 :: c3 :: r2 => contByte c && contByte c2 && contByte c3 && isValidUtf8 r2
      | _ => false
    else if b = 0xF4 then
      match r with
      | c :: c2 :: c3 :: r2 =>
        (0x80 ≤ c && c ≤ 0x8F) && contByte c2 && contByte c3 && isValidUtf8 r2
      | _ => false
    else false

/-- The `cstring_to_string!` macro: `CString::to_str`, failing with
`FfiTypeFrom CString` on invalid UTF-8. -/
def cstringToString (fn_name : String) (bytes : Str) : Except Error Str :=
  if isValidUtf8 bytes then .ok bytes
  else .error (.FfiTypeFrom .CString (fn_name ++ ": invalid utf-8"))

/-- `CStr::to_str` on an engine-owned pointer (`get_name`/`get_sender_name`),
failing with `FfiTypeFrom CStr` on invalid UTF-8. -/
def cstrToStr (fn_name : String) (bytes : Str) : Except Error Str :=
  if isValidUtf8 bytes then .ok bytes
  else .error (.FfiTypeFrom .CStr (fn_name ++ ": invalid utf-8"))

/-- `i32::try_from` on a usize: the `usize_to_c_int!` macro (lib.rs lines
197-209) and the inline `try_into` in `read_memory_buffer`.  Both hardcode
the context prefix `read_memory_buffer` (the macro does so even when expanded
inside `get_sender`, `get_adapter_name`, `get_preferred_adapter_name`). -/
def i32TryFromUsize (n : Nat) : Except Error Int :=
  if n ≤ 2147483647 then .ok (n : Int)
  else .error (.FfiTypeInto .CInt
    "read_memory_buffer: out of range integral type conversion attempted")

/-- The unchecked `usize as i32` cast in `write_memory_buffer` (lib.rs line
844): truncates to the low 32 bits, reinterpreted as two's-complement. -/
def wrapToI32 (n : Nat) : Int :=
  let r := n % 4294967296
  if r < 2147483648 then (r : Int) else (r : Int) - 4294967296

/-- A marshalled argument as it crosses the foreign boundary. -/
inductive Arg where
  | int (i : Int)
  | nat (n : Nat)
  | bool (b : Bool)
  | bytes (bs : Str)
  | ptr (p : Nat)
deriving DecidableEq, Repr

/-- One recorded call into the foreign engine. -/
structure EngineCall where
  entry : String
  args : List Arg
deriving DecidableEq, Repr

/-- The foreign engine as an oracle: responses per return shape.
`retPtrBytes` models entry points returning an engine-owned C string pointer
(`none` = null); `retPtr` models raw pointer returns (`GetSpout`,
`GetDX11Device`, `GetDX11Context`); `retBuf` is the byte view of a
caller-supplied buffer after the engine filled it. -/
structure Engine where
  retBool : EngineCall → Bool
  retInt : EngineCall → Int
  retNat : EngineCall → Nat
  retF64 : EngineCall → Int
  retPtrBytes : EngineCall → Option Str
  retPtr : EngineCall → Option Nat
  retBuf : EngineCall → Str

/-- `pub struct RustySpout { library: Option<*mut ffi::SPOUTLIBRARY> }`. -/
structure RustySpout where
  library : Option Nat
deriving DecidableEq, Repr

/-- Values a capability operation can return (the wrapper's `Result` payload
shapes; `nat` covers u32/DWORD/GLuint/HANDLE, `f64` is an opaque bit
pattern, `str` a decoded byte string). -/
inductive RVal where
  | unit
  | bool (b : Bool)
  | int (i : Int)
  | nat (n : Nat)
  | f64 (bits : Int)
  | str (s : Str)
  | pref (p : DxgiGpuPreference)
  | boolStr (b : Bool) (s : Str)
  | intStr (i : Int) (s : Str)
deriving DecidableEq, Repr

/-- Result of running an operation: a typed Rust `Result`, or a panic. -/
inductive Outcome where
  | ok (v : RVal)
  | err (e : Error)
  | panicked
deriving DecidableEq, Repr

/-- Outcome, post-state, and the trace of engine calls issued. -/
abbrev Out := Outcome × RustySpout × List EngineCall

/-- The `library!` macro (lib.rs lines 141-148): return `NoHandle` before
touching the engine when no handle is held.  The `if let Some(lib)` bodies of
`get_sender_width`/`height`/`format`/`fps` are semantically identical. -/
def guarded (s : RustySpout) (k : Nat → Out) : Out :=
  match s.library with
  | none => (.err .NoHandle, s, [])
  | some h => k h

/-- Early-return composition: a failed conversion aborts with the error,
keeping whatever engine calls were already issued (`t`). -/
def bindC {α : Type} (r : Except Error α) (s : RustySpout) (t : List EngineCall)
    (k : α → Out) : Out :=
  match r with
  | .error er => (.err er, s, t)
  | .ok v => k v

def callUnit (s : RustySpout) (_e : Engine) (entry : String) (args : List Arg) : Out :=
  (.ok .unit, s, [⟨entry, args⟩])

def callBool (s : RustySpout) (e : Engine) (entry : String) (args : List Arg) : Out :=
  (.ok (.bool (e.retBool ⟨entry, args⟩)), s, [⟨entry, args⟩])

def callInt (s : RustySpout) (e : Engine) (entry : String) (args : List Arg) : Out :=
  (.ok (.int (e.retInt ⟨entry, args⟩)), s, [⟨entry, args⟩])

def callNat (s : RustySpout) (e : Engine) (entry : String) (args : List Arg) : Out :=
  (.ok (.nat (e.retNat ⟨entry, args⟩)), s, [⟨entry, args⟩])

def callF64 (s : RustySpout) (e : Engine) (entry : String) (args : List Arg) : Out :=
  (.ok (.f64 (e.retF64 ⟨entry, args⟩)), s, [⟨entry, args⟩])

/-- Entry points returning a C++ std::string copied via `to_string()`
(`get_spout_log`, `get_sdk_version`): no failure path. -/
def callStdString (s : RustySpout) (e : Engine) (entry : String) (args : List Arg) : Out :=
  (.ok (.str (e.retBuf ⟨entry, args⟩)), s, [⟨entry, args⟩])

/-- Entry points returning an engine-owned `const char*` that the wrapper
null-checks and decodes (`get_name`, `get_sender_name`). -/
def callOwnedCStr (s : RustySpout) (e : Engine) (fn_name entry : String) : Out :=
  match e.retPtrBytes ⟨entry, []⟩ with
  | none => (.err .NullPtr, s, [⟨entry, []⟩])
  | some bs =>
    match cstrToStr fn_name bs with
    | .error er => (.err er, s, [⟨entry, []⟩])
    | .ok v => (.ok (.str v), s, [⟨entry, []⟩])

/-- `RustySpout::get_spout` (lib.rs lines 233-242): call the factory; null
means `NoHandle` (state untouched), otherwise store the handle. -/
def get_spout (s : RustySpout) (e : Engine) : Out :=
  let c : EngineCall := ⟨"GetSpout", []⟩
  match e.retPtr c with
  | none => (.err .NoHandle, s, [c])
  | some h => (.ok .unit, { library := some h }, [c])

/-- `RustySpout::release` (lib.rs lines 1758-1765): guard, call the engine's
`Release`, clear the stored handle. -/
def release (s : RustySpout) (_e : Engine) : Out :=
  match s.library with
  | none => (.err .NoHandle, s, [])
  | some _ => (.ok .unit, { library := none }, [⟨"Release", []⟩])

/-- The capability surface of `RustySpout` (every public method except
`new`, `get_spout`, `release` and `Drop`).  Constructor names and argument
lists follow lib.rs; u32/DWORD/GLuint arguments are `Nat`, i32 arguments are
`Int`, strings are byte lists. -/
inductive Op where
  | set_sender_name (name : Str)
  | set_sender_format (format : Nat)
  | release_sender (msec : Nat)
  | send_fbo (fbo_id : Nat) (width : Nat) (height : Nat) (invert : Bool)
  | send_texture (texture_id : Nat) (texture_target : Nat) (width : Nat)
      (height : Nat) (invert : Bool) (host_fbo : Nat)
  | send_image (pixels : Nat) (width : Nat) (height : Nat) (gl_format : Nat)
      (invert : Bool)
  | get_name
  | get_width
  | get_height
  | get_fps
  | get_frame
  | get_handle
  | get_cpu
  | get_gl_dx
  | set_receiver_name (sender_name : Str)
  | release_receiver
  | receive_texture (texture_id : Nat) (texture_target : Nat) (invert : Bool)
      (host_fbo : Nat)
  | receive_image (pixels : Nat) (gl_format : Nat) (invert : Bool) (host_fbo : Nat)
  | is_updated
  | is_connected
  | is_frame_new
  | get_sender_name
  | get_sender_width
  | get_sender_height
  | get_sender_format
  | get_sender_fps
  | get_sender_frame
  | get_sender_handle
  | get_sender_cpu
  | get_sender_gl_dx
  | select_sender
  | set_frame_count (enable : Bool)
  | disable_frame_count
  | is_frame_count_enabled
  | hold_fps (fps : Int)
  | get_refresh_rate
  | set_frame_sync (sender_name : Str)
  | wait_frame_sync (sender_name : Str) (timeout : Nat)
  | write_memory_buffer (sender_name : Str) (data : Str)
  | read_memory_buffer (sender_name : Str) (max_length : Nat)
  | create_memory_buffer (name : Str) (length : Int)
  | delete_memory_buffer
  | get_memory_buffer_size (name : Str)
  | open_spout_console
  | close_spout_console (warning : Bool)
  | enable_spout_log
  | enable_spout_log_file (filename : Str) (append : Bool)
  | get_spout_log
  | show_spout_logs
  | disable_spout_log
  | set_spout_log_level (level : Nat)
  | spout_log (format : Str)
  | spout_log_verbose (format : Str)
  | spout_log_notice (format : Str)
  | spout_log_warning (format : Str)
  | spout_log_error (format : Str)
  | spout_log_fatal (format : Str)
  | spout_message_box (message : Str) (milliseconds : Nat)
  | read_dword_from_registry (key : Nat) (sub_key : Str) (value_name : Str) (value : Nat)
  | write_dword_to_registry (key : Nat) (sub_key : Str) (value_name : Str) (value : Nat)
  | read_path_from_registry (key : Nat) (sub_key : Str) (value_name : Str) (file_path : Str)
  | write_path_to_registry (key : Nat) (sub_key : Str) (value_name : Str) (file_path : Str)
  | remove_path_from_registry (key : Nat) (sub_key : Str) (value_name : Str)
  | remove_sub_key (key : Nat) (sub_key : Str)
  | find_sub_key (key : Nat) (sub_key : Str)
  | get_sdk_version
  | is_laptop
  | start_timing
  | end_timing
  | is_initialized
  | bind_shared_texture
  | unbind_shared_texture
  | get_shared_texture_id
  | get_sender_count
  | get_sender (index : Int) (max_size : Nat)
  | find_sender_name (sender_name : Str)
  | get_sender_info (sender_name : Str) (width : Nat) (height : Nat)
      (share_handle : Nat) (format : Nat)
  | get_active_sender
  | set_active_sender (sender_name : Str)
  | get_buffer_mode
  | set_buffer_mode (active : Bool)
  | get_buffers
  | set_buffers (buffers : Int)
  | get_max_senders
  | set_max_senders (max_senders : Int)
  | create_sender (sender_name : Str) (width : Nat) (height : Nat) (format : Nat)
  | update_sender (sender_name : Str) (width : Nat) (height : Nat)
  | create_receiver (sender_name : Str) (width : Nat) (height : Nat) (use_active : Bool)
  | check_receiver (sender_name : Str) (width : Nat) (height : Nat) (use_active : Bool)
  | get_dx9
  | set_dx9 (dx9 : Bool)
  | get_memory_share_mode
  | set_memory_share_mode (mem : Bool)
  | get_cpu_mode
  | set_cpu_mode (cpu : Bool)
  | get_share_mode
  | set_share_mode (mode : Int)
  | select_sender_panel
  | get_host_path (sender_name : Str) (host_path : Str) (max_chars : Int)
  | get_vertical_sync
  | set_vertical_sync (sync : Bool)
  | get_spout_version
  | get_auto_share
  | set_auto_share (auto : Bool)
  | is_gl_dx_ready
  | get_num_adapters
  | get_adapter_name (index : Int) (max_chars : Nat)
  | get_adapter
  | get_performance_preference (path : Str)
  | set_performance_preference (preference : DxgiGpuPreference) (path : Str)
  | get_preferred_adapter_name (preference : DxgiGpuPreference) (max_chars : Nat)
  | set_preferred_adapter (preference : DxgiGpuPreference)
  | is_preference_available
  | is_application_path (path : Str)
  | create_opengl
  | close_opengl
  | copy_texture (source_id : Nat) (source_target : Nat) (dest_id : Nat)
      (dest_target : Nat) (width : Nat) (height : Nat) (invert : Bool) (host_fbo : Nat)
  | open_directx
  | close_directx
  | open_directx11 (device : Nat)
  | close_directx11
  | get_dx11_device
  | get_dx11_context

/-- Dispatch of one capability operation, mirroring the corresponding
`RustySpout` method body statement by statement. -/
def runOp (op : Op) (s : RustySpout) (e : Engine) : Out :=
  match op with
  | .set_sender_name name =>
    guarded s fun _ =>
    bindC (cstringNew "set_sender_name" name) s [] fun cname =>
    callUnit s e "SetSenderName" [.bytes cname]
  | .set_sender_format format =>
    guarded s fun _ => callUnit s e "SetSenderFormat" [.nat format]
  | .release_sender msec =>
    guarded s fun _ => callUnit s e "ReleaseSender" [.nat msec]
  | .send_fbo fbo_id width height invert =>
    guarded s fun _ =>
    callBool s e "SendFbo" [.nat fbo_id, .nat width, .nat height, .bool invert]
  | .send_texture texture_id texture_target width height invert host_fbo =>
    guarded s fun _ =>
    callBool s e "SendTexture"
      [.nat texture_id, .nat texture_target, .nat width, .nat height,
       .bool invert, .nat host_fbo]
  | .send_image pixels width height gl_format invert =>
    guarded s fun _ =>
    callBool s e "SendImage"
      [.ptr pixels, .nat width, .nat height, .nat gl_format, .bool invert]
  | .get_name =>
    guarded s fun _ => callOwnedCStr s e "get_name" "GetName"
  | .get_width =>
    guarded s fun _ => callNat s e "GetWidth" []
  | .get_height =>
    guarded s fun _ => callNat s e "GetHeight" []
  | .get_fps =>
    guarded s fun _ => callF64 s e "GetFps" []
  | .get_frame =>
    guarded s fun _ => callInt s e "GetFrame" []
  | .get_handle =>
    guarded s fun _ => callNat s e "GetHandle" []
  | .get_cpu =>
    guarded s fun _ => callBool s e "GetCPU" []
  | .get_gl_dx =>
    guarded s fun _ => callBool s e "GetGLDX" []
  | .set_receiver_name sender_name =>
    guarded s fun _ =>
    bindC (cstringNew "set_receiver_name" sender_name) s [] fun cname =>
    callUnit s e "SetReceiverName" [.bytes cname]
  | .release_receiver =>
    guarded s fun _ => callUnit s e "ReleaseReceiver" []
  | .receive_texture texture_id texture_target invert host_fbo =>
    guarded s fun _ =>
    callBool s e "ReceiveTexture"
      [.nat texture_id, .nat texture_target, .bool invert, .nat host_fbo]
  | .receive_image pixels gl_format invert host_fbo =>
    guarded s fun _ =>
    callBool s e "ReceiveImage"
      [.ptr pixels, .nat gl_format, .bool invert, .nat host_fbo]
  | .is_updated =>
    guarded s fun _ => callBool s e "IsUpdated" []
  | .is_connected =>
    guarded s fun _ => callBool s e "IsConnected" []
  | .is_frame_new =>
    guarded s fun _ => callBool s e "IsFrameNew" []
  | .get_sender_name =>
    guarded s fun _ => callOwnedCStr s e "get_sender_name" "GetSenderName"
  | .get_sender_width =>
    guarded s fun _ => callNat s e "GetSenderWidth" []
  | .get_sender_height =>
    guarded s fun _ => callNat s e "GetSenderHeight" []
  | .get_sender_format =>
    guarded s fun _ => callNat s e "GetSenderFormat" []
  | .get_sender_fps =>
    guarded s fun _ => callF64 s e "GetSenderFps" []
  | .get_sender_frame =>
    guarded s fun _ => callInt s e "GetSenderFrame" []
  | .get_sender_handle =>
    guarded s fun _ => callNat s e "GetSenderHandle" []
  | .get_sender_cpu =>
    guarded s fun _ => callBool s e "GetSenderCPU" []
  | .get_sender_gl_dx =>
    guarded s fun _ => callBool s e "GetSenderGLDX" []
  | .select_sender =>
    guarded s fun _ => callUnit s e "SelectSender" []
  | .set_frame_count enable =>
    guarded s fun _ => callUnit s e "SetFrameCount" [.bool enable]
  | .disable_frame_count =>
    guarded s fun _ => callUnit s e "DisableFrameCount" []
  | .is_frame_count_enabled =>
    guarded s fun _ => callBool s e "IsFrameCountEnabled" []
  | .hold_fps fps =>
    guarded s fun _ => callUnit s e "HoldFps" [.int fps]
  | .get_refresh_rate =>
    guarded s fun _ => callF64 s e "GetRefreshRate" []
  | .set_frame_sync sender_name =>
    guarded s fun _ =>
    bindC (cstringNew "set_frame_sync" sender_name) s [] fun cname =>
    callUnit s e "SetFrameSync" [.bytes cname]
  | .wait_frame_sync sender_name timeout =>
    guarded s fun _ =>
    bindC (cstringNew "wait_frame_sync" sender_name) s [] fun cname =>
    callBool s e "WaitFrameSync" [.bytes cname, .nat timeout]
  | .write_memory_buffer sender_name data =>
    guarded s fun _ =>
    bindC (cstringNew "write_memory_buffer" sender_name) s [] fun name =>
    bindC (cstringNew "write_memory_buffer" data) s [] fun cdata =>
    callBool s e "WriteMemoryBuffer"
      [.bytes name, .bytes cdata, .int (wrapToI32 cdata.length)]
  | .read_memory_buffer sender_name max_length =>
    guarded s fun _ =>
    bindC (cstringNew "read_memory_buffer" sender_name) s [] fun name =>
    if max_length = 0 then (.panicked, s, []) else
    let buffer := List.replicate (max_length - 1) 1 ++ [0]
    bindC (cstrFromBytesWithNul buffer) s [] fun data =>
    bindC (i32TryFromUsize max_length) s [] fun maxI =>
    let c : EngineCall := ⟨"ReadMemoryBuffer", [.bytes name, .bytes data, .int maxI]⟩
    bindC (cstringToString "read_memory_buffer" (e.retBuf c)) s [c] fun out =>
    (.ok (.intStr (e.retInt c) out), s, [c])
  | .create_memory_buffer name length =>
    guarded s fun _ =>
    bindC (cstringNew "create_memory_buffer" name) s [] fun cname =>
    callBool s e "CreateMemoryBuffer" [.bytes cname, .int length]
  | .delete_memory_buffer =>
    guarded s fun _ => callBool s e "DeleteMemoryBuffer" []
  | .get_memory_buffer_size name =>
    guarded s fun _ =>
    bindC (cstringNew "get_memory_buffer_size" name) s [] fun cname =>
    callInt s e "GetMemoryBufferSize" [.bytes cname]
  | .open_spout_console =>
    guarded s fun _ => callUnit s e "OpenSpoutConsole" []
  | .close_spout_console warning =>
    guarded s fun _ => callUnit s e "CloseSpoutConsole" [.bool warning]
  | .enable_spout_log =>
    guarded s fun _ => callUnit s e "EnableSpoutLog" []
  | .enable_spout_log_file filename append =>
    guarded s fun _ =>
    bindC (cstringNew "enable_spout_log_file" filename) s [] fun cname =>
    callUnit s e "EnableSpoutLogFile" [.bytes cname, .bool append]
  | .get_spout_log =>
    guarded s fun _ => callStdString s e "GetSpoutLog" []
  | .show_spout_logs =>
    guarded s fun _ => callUnit s e "ShowSpoutLogs" []
  | .disable_spout_log =>
    guarded s fun _ => callUnit s e "DisableSpoutLog" []
  | .set_spout_log_level level =>
    guarded s fun _ => callUnit s e "SetSpoutLogLevel" [.nat level]
  | .spout_log _ => (.err .Unbindable, s, [])
  | .spout_log_verbose _ => (.err .Unbindable, s, [])
  | .spout_log_notice _ => (.err .Unbindable, s, [])
  | .spout_log_warning _ => (.err .Unbindable, s, [])
  | .spout_log_error _ => (.err .Unbindable, s, [])
  | .spout_log_fatal _ => (.err .Unbindable, s, [])
  | .spout_message_box message milliseconds =>
    guarded s fun _ =>
    bindC (cstringNew "spout_message_box" message) s [] fun cmsg =>
    callInt s e "SpoutMessageBox" [.bytes cmsg, .nat milliseconds]
  | .read_dword_from_registry _ _ _ _ => (.err .Unbindable, s, [])
  | .write_dword_to_registry _ _ _ _ => (.err .Unbindable, s, [])
  | .read_path_from_registry _ _ _ _ => (.err .Unbindable, s, [])
  | .write_path_to_registry _ _ _ _ => (.err .Unbindable, s, [])
  | .remove_path_from_registry _ _ _ => (.err .Unbindable, s, [])
  | .remove_sub_key _ _ => (.err .Unbindable, s, [])
  | .find_sub_key _ _ => (.err .Unbindable, s, [])
  | .get_sdk_version =>
    guarded s fun _ => callStdString s e "GetSDKversion" []
  | .is_laptop =>
    guarded s fun _ => callBool s e "IsLaptop" []
  | .start_timing =>
    guarded s fun _ => callUnit s e "StartTiming" []
  | .end_timing =>
    guarded s fun _ => callF64 s e "EndTiming" []
  | .is_initialized =>
    guarded s fun _ => callBool s e "IsInitialized" []
  | .bind_shared_texture =>
    guarded s fun _ => callBool s e "BindSharedTexture" []
  | .unbind_shared_texture =>
    guarded s fun _ => callBool s e "UnBindSharedTexture" []
  | .get_shared_texture_id =>
    guarded s fun _ => callNat s e "GetSharedTextureID" []
  | .get_sender_count =>
    guarded s fun _ => callInt s e "GetSenderCount" []
  | .get_sender index max_size =>
    guarded s fun _ =>
    if max_size = 0 then (.panicked, s, []) else
    let buffer := List.replicate (max_size - 1) 1 ++ [0]
    bindC (cstrFromBytesWithNul buffer) s [] fun sender_name =>
    bindC (i32TryFromUsize max_size) s [] fun maxI =>
    let c : EngineCall := ⟨"GetSender", [.int index, .bytes sender_name, .int maxI]⟩
    bindC (cstringToString "get_sender" (e.retBuf c)) s [c] fun out =>
    (.ok (.boolStr (e.retBool c) out), s, [c])
  | .find_sender_name sender_name =>
    guarded s fun _ =>
    bindC (cstringNew "find_sender_name" sender_name) s [] fun cname =>
    callBool s e "FindSenderName" [.bytes cname]
  | .get_sender_info sender_name _ _ _ _ =>
    guarded s fun _ =>
    bindC (cstringNew "get_sender_info" sender_name) s [] fun _ =>
    (.panicked, s, [])
  | .get_active_sender =>
    guarded s fun _ =>
    let buffer : Str := [0]
    bindC (cstrFromBytesWithNul buffer) s [] fun sender_name =>
    let c : EngineCall := ⟨"GetActiveSender", [.bytes sender_name]⟩
    bindC (cstringToString "get_active_sender" (e.retBuf c)) s [c] fun out =>
    (.ok (.boolStr (e.retBool c) out), s, [c])
  | .set_active_sender sender_name =>
    guarded s fun _ =>
    bindC (cstringNew "set_active_sender" sender_name) s [] fun cname =>
    callBool s e "SetActiveSender" [.bytes cname]
  | .get_buffer_mode =>
    guarded s fun _ => callBool s e "GetBufferMode" []
  | .set_buffer_mode active =>
    guarded s fun _ => callUnit s e "SetBufferMode" [.bool active]
  | .get_buffers =>
    guarded s fun _ => callInt s e "GetBuffers" []
  | .set_buffers buffers =>
    guarded s fun _ => callUnit s e "SetBuffers" [.int buffers]
  | .get_max_senders =>
    guarded s fun _ => callInt s e "GetMaxSenders" []
  | .set_max_senders max_senders =>
    guarded s fun _ => callUnit s e "SetMaxSenders" [.int max_senders]
  | .create_sender sender_name width height format =>
    guarded s fun _ =>
    bindC (cstringNew "create_sender" sender_name) s [] fun cname =>
    callBool s e "CreateSender" [.bytes cname, .nat width, .nat height, .nat format]
  | .update_sender sender_name width height =>
    guarded s fun _ =>
    bindC (cstringNew "update_sender" sender_name) s [] fun cname =>
    callBool s e "UpdateSender" [.bytes cname, .nat width, .nat height]
  | .create_receiver _ _ _ _ => (.panicked, s, [])
  | .check_receiver _ _ _ _ => (.panicked, s, [])
  | .get_dx9 =>
    guarded s fun _ => callBool s e "GetDX9" []
  | .set_dx9 dx9 =>
    guarded s fun _ => callBool s e "SetDX9" [.bool dx9]
  | .get_memory_share_mode =>
    guarded s fun _ => callBool s e "GetMemoryShareMode" []
  | .set_memory_share_mode mem =>
    guarded s fun _ => callBool s e "SetMemoryShareMode" [.bool mem]
  | .get_cpu_mode =>
    guarded s fun _ => callBool s e "GetCPUmode" []
  | .set_cpu_mode cpu =>
    guarded s fun _ => callBool s e "SetCPUmode" [.bool cpu]
  | .get_share_mode =>
    guarded s fun _ => callInt s e "GetShareMode" []
  | .set_share_mode mode =>
    guarded s fun _ => callUnit s e "SetShareMode" [.int mode]
  | .select_sender_panel =>
    guarded s fun _ => callUnit s e "SelectSenderPanel" []
  | .get_host_path sender_name host_path max_chars =>
    guarded s fun _ =>
    bindC (cstringNew "get_host_path" sender_name) s [] fun sn =>
    bindC (cstringNew "get_host_path" host_path) s [] fun hp =>
    let c : EngineCall := ⟨"GetHostPath", [.bytes sn, .bytes hp, .int max_chars]⟩
    bindC (cstringToString "get_host_path" (e.retBuf c)) s [c] fun out =>
    (.ok (.boolStr (e.retBool c) out), s, [c])
  | .get_vertical_sync =>
    guarded s fun _ => callInt s e "GetVerticalSync" []
  | .set_vertical_sync sync =>
    guarded s fun _ => callBool s e "SetVerticalSync" [.bool sync]
  | .get_spout_version =>
    guarded s fun _ => callInt s e "GetSpoutVersion" []
  | .get_auto_share =>
    guarded s fun _ => callBool s e "GetAutoShare" []
  | .set_auto_share auto =>
    guarded s fun _ => callUnit s e "SetAutoShare" [.bool auto]
  | .is_gl_dx_ready =>
    guarded s fun _ => callBool s e "IsGLDXready" []
  | .get_num_adapters =>
    guarded s fun _ => callInt s e "GetNumAdapters" []
  | .get_adapter_name index max_chars =>
    guarded s fun _ =>
    if max_chars = 0 then (.panicked, s, []) else
    let buffer := List.replicate (max_chars - 1) 1 ++ [0]
    bindC (cstrFromBytesWithNul buffer) s [] fun adapter_name =>
    bindC (i32TryFromUsize max_chars) s [] fun maxI =>
    let c : EngineCall := ⟨"GetAdapterName", [.int index, .bytes adapter_name, .int maxI]⟩
    bindC (cstringToString "get_adapter_name" (e.retBuf c)) s [c] fun out =>
    (.ok (.boolStr (e.retBool c) out), s, [c])
  | .get_adapter =>
    guarded s fun _ => callInt s e "GetAdapter" []
  | .get_performance_preference path =>
    guarded s fun _ =>
    bindC (cstringNew "get_performance_preference" path) s [] fun cpath =>
    let c : EngineCall := ⟨"GetPerformancePreference", [.bytes cpath]⟩
    bindC (tryFromI32 (e.retInt c)) s [c] fun pref =>
    (.ok (.pref pref), s, [c])
  | .set_performance_preference preference path =>
    guarded s fun _ =>
    bindC (tryIntoI32 preference) s [] fun prefI =>
    bindC (cstringNew "set_performance_preference" path) s [] fun cpath =>
    callBool s e "SetPerformancePreference" [.int prefI, .bytes cpath]
  | .get_preferred_adapter_name preference max_chars =>
    guarded s fun _ =>
    bindC (tryIntoI32 preference) s [] fun prefI =>
    if max_chars = 0 then (.panicked, s, []) else
    let buffer := List.replicate (max_chars - 1) 1 ++ [0]
    bindC (cstrFromBytesWithNul buffer) s [] fun adapter_name =>
    bindC (i32TryFromUsize max_chars) s [] fun maxI =>
    let c : EngineCall :=
      ⟨"GetPreferredAdapterName", [.int prefI, .bytes adapter_name, .int maxI]⟩
    bindC (cstringToString "get_preferred_adapter_name" (e.retBuf c)) s [c] fun out =>
    (.ok (.boolStr (e.retBool c) out), s, [c])
  | .set_preferred_adapter preference =>
    guarded s fun _ =>
    bindC (tryIntoI32 preference) s [] fun prefI =>
    callBool s e "SetPreferredAdapter" [.int prefI]
  | .is_preference_available =>
    guarded s fun _ => callBool s e "IsPreferenceAvailable" []
  | .is_application_path path =>
    guarded s fun _ =>
    bindC (cstringNew "is_application_path" path) s [] fun cpath =>
    callBool s e "IsApplicationPath" [.bytes cpath]
  | .create_opengl =>
    guarded s fun _ => callBool s e "CreateOpenGL" []
  | .close_opengl =>
    guarded s fun _ => callBool s e "CloseOpenGL" []
  | .copy_texture source_id source_target dest_id dest_target width height invert host_fbo =>
    guarded s fun _ =>
    callBool s e "CopyTexture"
      [.nat source_id, .nat source_target, .nat dest_id, .nat dest_target,
       .nat width, .nat height, .bool invert, .nat host_fbo]
  | .open_directx =>
    guarded s fun _ => callBool s e "OpenDirectX" []
  | .close_directx =>
    guarded s fun _ => callUnit s e "CloseDirectX" []
  | .open_directx11 device =>
    guarded s fun _ => callBool s e "OpenDirectX11" [.ptr device]
  | .close_directx11 =>
    guarded s fun _ => callUnit s e "CloseDirectX11" []
  | .get_dx11_device =>
    guarded s fun _ =>
    let c : EngineCall := ⟨"GetDX11Device", []⟩
    match e.retPtr c with
    | none => (.err .NullPtr, s, [c])
    | some p => (.ok (.nat p), s, [c])
  | .get_dx11_context =>
    guarded s fun _ =>
    let c : EngineCall := ⟨"GetDX11Context", []⟩
    match e.retPtr c with
    | none => (.err .NullPtr, s, [c])
    | some p => (.ok (.nat p), s, [c])

/-- The operations lib.rs marks "not bindable to Rust": the variadic logging
formatters and the registry accessors. -/
def isUnbindable : Op → Bool
  | .spout_log _ => true
  | .spout_log_verbose _ => true
  | .spout_log_notice _ => true
  | .spout_log_warning _ => true
  | .spout_log_error _ => true
  | .spout_log_fatal _ => true
  | .read_dword_from_registry _ _ _ _ => true
  | .write_dword_to_registry _ _ _ _ => true
  | .read_path_from_registry _ _ _ _ => true
  | .write_path_to_registry _ _ _ _ => true
  | .remove_path_from_registry _ _ _ => true
  | .remove_sub_key _ _ => true
  | .find_sub_key _ _ => true
  | _ => false

/-- The operations whose body is `todo!()` before the handle guard. -/
def isUnimplemented : Op → Bool
  | .create_receiver _ _ _ _ => true
  | .check_receiver _ _ _ _ => true
  | _ => false

/-- The operations without a reachable panic: everything except the
`todo!()` bodies, and except the four output-buffer operations when the
requested capacity is 0 (usize underflow in `vec![1; capacity - 1]`). -/
def panicFree : Op → Prop
  | .create_receiver _ _ _ _ => False
  | .check_receiver _ _ _ _ => False
  | .get_sender_info _ _ _ _ _ => False
  | .read_memory_buffer _ n => n ≠ 0
  | .get_sender _ n => n ≠ 0
  | .get_adapter_name _ n => n ≠ 0
  | .get_preferred_adapter_name _ n => n ≠ 0
  | _ => True

/-- A stub engine: every response is the default value, no handle available. -/
def eng0 : Engine :=
  ⟨fun _ => false, fun _ => 0, fun _ => 0, fun _ => 0,
   fun _ => none, fun _ => none, fun _ => []⟩

/-- A wrapper that has not acquired a handle. -/
def noSpout : RustySpout := ⟨none⟩

/-- A wrapper holding a handle. -/
def spoutWith (h : Nat) : RustySpout := ⟨some h⟩

/-- The outbound-string injection points: each constructor is one operation
position at which a caller string is fed to `CString::new` (via
`str_to_cstring!` or the inline matches).  Operations intentionally failing
with `Unbindable` never marshal their strings and are not injection points. -/
inductive StrSlot where
  | sl_set_sender_name
  | sl_set_receiver_name
  | sl_set_frame_sync
  | sl_wait_frame_sync
  | sl_write_memory_buffer_name
  | sl_write_memory_buffer_data
  | sl_read_memory_buffer
  | sl_create_memory_buffer
  | sl_get_memory_buffer_size
  | sl_enable_spout_log_file
  | sl_spout_message_box
  | sl_get_sender_info
  | sl_find_sender_name
  | sl_set_active_sender
  | sl_create_sender
  | sl_update_sender
  | sl_get_host_path_sender
  | sl_get_host_path_path
  | sl_get_performance_preference
  | sl_set_performance_preference
  | sl_is_application_path

/-- Instantiate a slot with the string under test; companion arguments are
fixed to innocuous values (`[97]` is the nul-free byte string "a"). -/
def mkOp : StrSlot → Str → Op
  | .sl_set_sender_name, str => .set_sender_name str
  | .sl_set_receiver_name, str => .set_receiver_name str
  | .sl_set_frame_sync, str => .set_frame_sync str
  | .sl_wait_frame_sync, str => .wait_frame_sync str 0
  | .sl_write_memory_buffer_name, str => .write_memory_buffer str [97]
  | .sl_write_memory_buffer_data, str => .write_memory_buffer [97] str
  | .sl_read_memory_buffer, str => .read_memory_buffer str 1
  | .sl_create_memory_buffer, str => .create_memory_buffer str 0
  | .sl_get_memory_buffer_size, str => .get_memory_buffer_size str
  | .sl_enable_spout_log_file, str => .enable_spout_log_file str true
  | .sl_spout_message_box, str => .spout_message_box str 0
  | .sl_get_sender_info, str => .get_sender_info str 0 0 0 0
  | .sl_find_sender_name, str => .find_sender_name str
  | .sl_set_active_sender, str => .set_active_sender str
  | .sl_create_sender, str => .create_sender str 0 0 0
  | .sl_update_sender, str => .update_sender str 0 0
  | .sl_get_host_path_sender, str => .get_host_path str [97] 0
  | .sl_get_host_path_path, str => .get_host_path [97] str 0
  | .sl_get_performance_preference, str => .get_performance_preference str
  | .sl_set_performance_preference, str => .set_performance_preference .Unspecified str
  | .sl_is_application_path, str => .is_application_path str

/-- The operation name each slot's `str_to_cstring!` expansion embeds in the
error context. -/
def slotName : StrSlot → String
  | .sl_set_sender_name => "set_sender_name"
  | .sl_set_receiver_name => "set_receiver_name"
  | .sl_set_frame_sync => "set_frame_sync"
  | .sl_wait_frame_sync => "wait_frame_sync"
  | .sl_write_memory_buffer_name => "write_memory_buffer"
  | .sl_write_memory_buffer_data => "write_memory_buffer"
  | .sl_read_memory_buffer => "read_memory_buffer"
  | .sl_create_memory_buffer => "create_memory_buffer"
  | .sl_get_memory_buffer_size => "get_memory_buffer_size"
  | .sl_enable_spout_log_file => "enable_spout_log_file"
  | .sl_spout_message_box => "spout_message_box"
  | .sl_get_sender_info => "get_sender_info"
  | .sl_find_sender_name => "find_sender_name"
  | .sl_set_active_sender => "set_active_sender"
  | .sl_create_sender => "create_sender"
  | .sl_update_sender => "update_sender"
  | .sl_get_host_path_sender => "get_host_path"
  | .sl_get_host_path_path => "get_host_path"
  | .sl_get_performance_preference => "get_performance_preference"
  | .sl_set_performance_preference => "set_performance_preference"
  | .sl_is_application_path => "is_application_path"

/-! ## Helper lemmas -/

theorem firstNul_replicate (n c : Nat) (hc : c ≠ 0) :
    firstNul (List.replicate n c) = none := by
  induction n with
  | zero => rfl
  | succ m ih => simp [List.replicate, firstNul, hc, ih]

theorem firstNul_replicate_one_append (n : Nat) :
    firstNul (List.replicate n 1 ++ [0]) = some n := by
  induction n with
  | zero => rfl
  | succ m ih => simp [List.replicate, firstNul, ih]

theorem cstrFromBytesWithNul_buffer (n : Nat) :
    cstrFromBytesWithNul (List.replicate n 1 ++ [0])
      = .ok (List.replicate n 1 ++ [0]) := by
  simp [cstrFromBytesWithNul, firstNul_replicate_one_append]

theorem guarded_snd_state {s : RustySpout} {k : Nat → Out}
    (h : ∀ x, (k x).2.1 = s) : (guarded s k).2.1 = s := by
  unfold guarded
  cases s.library <;> simp [h]

theorem bindC_snd_state {α : Type} {r : Except Error α} {s : RustySpout}
    {t : List EngineCall} {k : α → Out}
    (h : ∀ a, (k a).2.1 = s) : (bindC r s t k).2.1 = s := by
  unfold bindC
  cases r <;> simp [h]

theorem callOwnedCStr_snd_state {s : RustySpout} {e : Engine} {fn en : String} :
    (callOwnedCStr s e fn en).2.1 = s := by
  unfold callOwnedCStr
  (repeat' split) <;> rfl

/-! ## Claim theorems -/

/-- Claim C6: the `DxgiGpuPreference` integer mapping is a bijection with
{-1, 0, 1, 2}: for each of the four variants, integer-encode followed by
integer-decode returns the original variant, and decoding any integer outside
{-1, 0, 1, 2} yields `UnexpectedValue`, never a default variant. -/
theorem C6_pref_int_bijection :
    (∀ p : DxgiGpuPreference, ∃ i : Int,
      tryIntoI32 p = .ok i ∧ tryFromI32 i = .ok p) ∧
    (∀ i : Int, i ≠ -1 → i ≠ 0 → i ≠ 1 → i ≠ 2 →
      tryFromI32 i = .error (.UnexpectedValue "DxgiGpuPreference::try_from")) := by
  refine ⟨fun p => ?_, fun i h1 h2 h3 h4 => ?_⟩
  · cases p
    · exact ⟨-1, rfl, rfl⟩
    · exact ⟨0, rfl, rfl⟩
    · exact ⟨1, rfl, rfl⟩
    · exact ⟨2, rfl, rfl⟩
  · simp [tryFromI32, h1, h2, h3, h4]

/-- Claim C6 witness: the bijection theorem applied at `HighPerformance` and at the
out-of-range code 7. -/
theorem C6_witness :
    (∃ i : Int, tryIntoI32 .HighPerformance = .ok i ∧
      tryFromI32 i = .ok .HighPerformance) ∧
    tryFromI32 7 = .error (.UnexpectedValue "DxgiGpuPreference::try_from") :=
  ⟨C6_pref_int_bijection.1 .HighPerformance,
   C6_pref_int_bijection.2 7 (by decide) (by decide) (by decide) (by decide)⟩

/-- Claim C7 counterexample: `NotRegistered` does not convert to a textual token;
it falls into the `_` arm of `TryInto<String>` and yields `UnexpectedValue`,
so the claimed total lossless string mapping over all four variants fails. -/
theorem C7_cex_not_registered :
    tryIntoString .NotRegistered
      = .error (.UnexpectedValue "DxgiGpuPreference::try_into") := rfl

/-- Claim C7 (amended): exactly the three variants `Unspecified`, `MinimumPower`,
`HighPerformance` convert to fixed, pairwise-distinct textual tokens;
`NotRegistered` yields `UnexpectedValue`; no token-to-variant conversion
exists in the code, so the mapping is lossless (injective) on its domain but
not bidirectional. -/
theorem C7_string_tokens :
    tryIntoString .Unspecified = .ok "DXGI_GPU_PREFERENCE_UNSPECIFIED" ∧
    tryIntoString .MinimumPower = .ok "DXGI_GPU_PREFERENCE_MINIMUM_POWER" ∧
    tryIntoString .HighPerformance = .ok "DXGI_GPU_PREFERENCE_HIGH_PERFORMANCE" ∧
    tryIntoString .NotRegistered
      = .error (.UnexpectedValue "DxgiGpuPreference::try_into") ∧
    ("DXGI_GPU_PREFERENCE_UNSPECIFIED" : String) ≠ "DXGI_GPU_PREFERENCE_MINIMUM_POWER" ∧
    ("DXGI_GPU_PREFERENCE_UNSPECIFIED" : String) ≠ "DXGI_GPU_PREFERENCE_HIGH_PERFORMANCE" ∧
    ("DXGI_GPU_PREFERENCE_MINIMUM_POWER" : String) ≠ "DXGI_GPU_PREFERENCE_HIGH_PERFORMANCE" := by
  refine ⟨rfl, rfl, rfl, rfl, by decide, by decide, by decide⟩

/-- Claim C10: the intentionally unbindable operations (the logging-formatter
family and the registry family) return `Unbindable` unconditionally: for
every input, every handle state and every engine, with no engine call — in
particular they return `Unbindable` rather than `NoHandle` even when no
handle is held. -/
theorem C10_unbindable_unconditional :
    ∀ (op : Op), isUnbindable op = true →
      ∀ (s : RustySpout) (e : Engine), runOp op s e = (.err .Unbindable, s, []) := by
  intro op h s e
  cases op <;> first
    | rfl
    | (exfalso; revert h; simp [isUnbindable]; done)

/-- Claim C10 witness: `spout_log` with no handle held still yields `Unbindable`. -/
theorem C10_witness :
    isUnbindable (.spout_log [97]) = true ∧
    runOp (.spout_log [97]) noSpout eng0 = (.err .Unbindable, noSpout, []) :=
  ⟨rfl, C10_unbindable_unconditional (.spout_log [97]) rfl noSpout eng0⟩

/-- Claim C1 counterexample: `spout_log` is a capability operation of the wrapper,
yet calling it with no handle held returns `Unbindable`, not `NoHandle`, so
the claim does not hold of every capability operation. -/
theorem C1_cex_spout_log :
    (runOp (.spout_log [97]) noSpout eng0).1 = .err .Unbindable ∧
    (runOp (.spout_log [97]) noSpout eng0).1 ≠ .err .NoHandle := by
  exact ⟨rfl, by decide⟩

/-- Claim C1 (amended): every capability operation except the intentionally
unbindable family (which returns `Unbindable`) and the unimplemented
`create_receiver`/`check_receiver` (whose `todo!()` bodies panic before the
guard) returns the `NoHandle` error when no handle is held, performing no
engine call. -/
theorem C1_no_handle_guard :
    ∀ (op : Op) (e : Engine), isUnbindable op = false → isUnimplemented op = false →
      runOp op noSpout e = (.err .NoHandle, noSpout, []) := by
  intro op e h1 h2
  cases op <;> first
    | rfl
    | (exfalso; revert h1; simp [isUnbindable]; done)
    | (exfalso; revert h2; simp [isUnimplemented]; done)

/-- Claim C1 witness: the guard theorem applied at `get_width`. -/
theorem C1_witness :
    isUnbindable .get_width = false ∧ isUnimplemented .get_width = false ∧
    runOp .get_width noSpout eng0 = (.err .NoHandle, noSpout, []) :=
  ⟨rfl, rfl, C1_no_handle_guard .get_width eng0 rfl rfl⟩

/-- Claim C2 counterexample: with a handle held, the first `release()` returns Ok
and the engine `Release` is called exactly once overall, but the second
`release()` returns `Err(NoHandle)` — not a non-erroring result, because
`release` clears the handle and the `library!` guard then rejects. -/
theorem C2_cex_second_release_errors :
    (release (spoutWith 1) eng0).1 = .ok .unit ∧
    (release (release (spoutWith 1) eng0).2.1 eng0).1 = .err .NoHandle ∧
    (release (spoutWith 1) eng0).2.2
        ++ (release (release (spoutWith 1) eng0).2.1 eng0).2.2
      = [⟨"Release", []⟩] := by
  refine ⟨rfl, rfl, rfl⟩

/-- Claim C2 (amended): calling `release()` twice in succession on a wrapper that
holds a handle invokes the engine's release entry point exactly once (on the
first call); the first call returns Ok and clears the handle, the second
returns `Err(NoHandle)` and performs no engine call. -/
theorem C2_release_at_most_once :
    ∀ (h : Nat) (e e2 : Engine),
      release (spoutWith h) e = (.ok .unit, ⟨none⟩, [⟨"Release", []⟩]) ∧
      release (release (spoutWith h) e).2.1 e2 = (.err .NoHandle, ⟨none⟩, []) := by
  intro h e e2
  exact ⟨rfl, rfl⟩

/-- Claim C9: every capability operation (every public method other than
`get_spout`, `release` and `Drop`) leaves the stored `library` field — in
fact the whole wrapper state — unchanged, on success, error and panic paths
alike, for every starting state and every engine. -/
theorem C9_frame_library_unchanged :
    ∀ (op : Op) (s : RustySpout) (e : Engine), (runOp op s e).2.1 = s := by
  intro op s e
  cases op <;>
    simp only [runOp] <;>
    (repeat' first
      | rfl
      | apply guarded_snd_state
      | apply bindC_snd_state
      | exact callOwnedCStr_snd_state
      | intro _
      | split)

theorem guarded_fst_ne_panic {s : RustySpout} {k : Nat → Out}
    (h : ∀ x, (k x).1 ≠ .panicked) : (guarded s k).1 ≠ .panicked := by
  unfold guarded
  cases s.library <;> simp [h]

theorem bindC_fst_ne_panic {α : Type} {r : Except Error α} {s : RustySpout}
    {t : List EngineCall} {k : α → Out}
    (h : ∀ a, (k a).1 ≠ .panicked) : (bindC r s t k).1 ≠ .panicked := by
  unfold bindC
  cases r <;> simp [h]

theorem callOwnedCStr_fst_ne_panic {s : RustySpout} {e : Engine} {fn en : String} :
    (callOwnedCStr s e fn en).1 ≠ .panicked := by
  unfold callOwnedCStr
  (repeat' split) <;> simp

theorem err_fst_ne_panic {er : Error} {s : RustySpout} {t : List EngineCall} :
    ((Outcome.err er, s, t) : Out).1 ≠ .panicked := by simp

theorem ok_fst_ne_panic {v : RVal} {s : RustySpout} {t : List EngineCall} :
    ((Outcome.ok v, s, t) : Out).1 ≠ .panicked := by simp

theorem callUnit_fst_ne_panic {s : RustySpout} {e : Engine} {en : String}
    {a : List Arg} : (callUnit s e en a).1 ≠ .panicked := by simp [callUnit]

theorem callBool_fst_ne_panic {s : RustySpout} {e : Engine} {en : String}
    {a : List Arg} : (callBool s e en a).1 ≠ .panicked := by simp [callBool]

theorem callInt_fst_ne_panic {s : RustySpout} {e : Engine} {en : String}
    {a : List Arg} : (callInt s e en a).1 ≠ .panicked := by simp [callInt]

theorem callNat_fst_ne_panic {s : RustySpout} {e : Engine} {en : String}
    {a : List Arg} : (callNat s e en a).1 ≠ .panicked := by simp [callNat]

theorem callF64_fst_ne_panic {s : RustySpout} {e : Engine} {en : String}
    {a : List Arg} : (callF64 s e en a).1 ≠ .panicked := by simp [callF64]

theorem callStdString_fst_ne_panic {s : RustySpout} {e : Engine} {en : String}
    {a : List Arg} : (callStdString s e en a).1 ≠ .panicked := by simp [callStdString]

theorem errv_ne_panic {er : Error} : Outcome.err er ≠ Outcome.panicked := by simp

theorem okv_ne_panic {v : RVal} : Outcome.ok v ≠ Outcome.panicked := by simp

/-- Claim C4 counterexample: `create_receiver` panics (its body is `todo!()`) even
with a handle held and well-formed inputs, so it does not return a typed
`Result` to the caller. -/
theorem C4_cex_create_receiver :
    runOp (.create_receiver [97] 1 1 true) (spoutWith 1) eng0
      = (.panicked, spoutWith 1, []) := rfl

/-- Claim C4 (amended): every capability operation returns a typed `Result` and
never panics — for every state, every input and every engine — except the
unimplemented `create_receiver`, `check_receiver` and `get_sender_info`
(whose `todo!()` bodies panic) and the four output-buffer operations when
invoked with capacity 0 (usize underflow in `vec![1; capacity - 1]`).
A missing handle, a null pointer or bad UTF-8 never causes a panic. -/
theorem C4_no_panic :
    ∀ (op : Op), panicFree op →
      ∀ (s : RustySpout) (e : Engine), (runOp op s e).1 ≠ .panicked := by
  intro op h s e
  cases op
  case create_receiver a b c d => exact h.elim
  case check_receiver a b c d => exact h.elim
  case get_sender_info a b c d f => exact h.elim
  case read_memory_buffer name n =>
    simp only [runOp]
    apply guarded_fst_ne_panic
    intro x
    apply bindC_fst_ne_panic
    intro a
    rw [if_neg h]
    apply bindC_fst_ne_panic
    intro b
    apply bindC_fst_ne_panic
    intro c
    apply bindC_fst_ne_panic
    intro d
    exact ok_fst_ne_panic
  case get_sender i n =>
    simp only [runOp]
    apply guarded_fst_ne_panic
    intro x
    rw [if_neg h]
    apply bindC_fst_ne_panic
    intro a
    apply bindC_fst_ne_panic
    intro b
    apply bindC_fst_ne_panic
    intro c
    exact ok_fst_ne_panic
  case get_adapter_name i n =>
    simp only [runOp]
    apply guarded_fst_ne_panic
    intro x
    rw [if_neg h]
    apply bindC_fst_ne_panic
    intro a
    apply bindC_fst_ne_panic
    intro b
    apply bindC_fst_ne_panic
    intro c
    exact ok_fst_ne_panic
  case get_preferred_adapter_name p n =>
    simp only [runOp]
    apply guarded_fst_ne_panic
    intro x
    apply bindC_fst_ne_panic
    intro a
    rw [if_neg h]
    apply bindC_fst_ne_panic
    intro b
    apply bindC_fst_ne_panic
    intro c
    apply bindC_fst_ne_panic
    intro d
    exact ok_fst_ne_panic
  all_goals
    simp only [runOp] <;>
    first
      | exact errv_ne_panic
      | (apply guarded_fst_ne_panic; intro x;
         (repeat (apply bindC_fst_ne_panic; intro _));
         first
           | exact callOwnedCStr_fst_ne_panic
           | exact callUnit_fst_ne_panic
           | exact callBool_fst_ne_panic
           | exact callInt_fst_ne_panic
           | exact callNat_fst_ne_panic
           | exact callF64_fst_ne_panic
           | exact callStdString_fst_ne_panic
           | exact okv_ne_panic
           | (split <;> first | exact errv_ne_panic | exact okv_ne_panic))

/-- Claim C4 witness: the no-panic theorem applied at `get_name` with a handle. -/
theorem C4_witness :
    panicFree .get_name ∧
    (runOp .get_name (spoutWith 1) eng0).1 ≠ .panicked :=
  ⟨trivial, C4_no_panic .get_name trivial (spoutWith 1) eng0⟩

/-- Claim C5 counterexample: `read_memory_buffer` with requested capacity 0 is not
rejected with an error; the `max_length - 1` usize subtraction in
`vec![1; max_length - 1]` overflows and the call panics (before any engine
call). -/
theorem C5_cex_zero_capacity_panics :
    runOp (.read_memory_buffer [97] 0) (spoutWith 1) eng0
      = (.panicked, spoutWith 1, []) := rfl

/-- Claim C5 (amended): for each operation taking a caller-specified output-buffer
capacity (`read_memory_buffer`, `get_sender`, `get_adapter_name`,
`get_preferred_adapter_name`), a requested capacity of 0 causes a panic
(usize underflow while constructing the buffer) before any engine call; it
is not rejected with an error value. -/
theorem C5_zero_capacity_panics :
    (∀ (name : Str) (h : Nat) (e : Engine), firstNul name = none →
      runOp (.read_memory_buffer name 0) (spoutWith h) e
        = (.panicked, spoutWith h, [])) ∧
    (∀ (index : Int) (h : Nat) (e : Engine),
      runOp (.get_sender index 0) (spoutWith h) e = (.panicked, spoutWith h, [])) ∧
    (∀ (index : Int) (h : Nat) (e : Engine),
      runOp (.get_adapter_name index 0) (spoutWith h) e
        = (.panicked, spoutWith h, [])) ∧
    (∀ (p : DxgiGpuPreference) (h : Nat) (e : Engine),
      runOp (.get_preferred_adapter_name p 0) (spoutWith h) e
        = (.panicked, spoutWith h, [])) := by
  refine ⟨fun name h e hn => ?_, fun i h e => rfl, fun i h e => rfl,
    fun p h e => ?_⟩
  · simp [runOp, spoutWith, guarded, bindC, cstringNew, hn]
  · cases p <;> rfl

/-- Claim C5 witness: the capacity-0 theorem applied at `read_memory_buffer` with
the nul-free name "a". -/
theorem C5_witness :
    firstNul [97] = none ∧
    runOp (.read_memory_buffer [97] 0) (spoutWith 2) eng0
      = (.panicked, spoutWith 2, []) :=
  ⟨rfl, C5_zero_capacity_panics.1 [97] 2 eng0 rfl⟩

theorem write_memory_buffer_run (name data : Str) (h : Nat) (e : Engine)
    (hn : firstNul name = none) (hd : firstNul data = none) :
    runOp (.write_memory_buffer name data) (spoutWith h) e
      = (.ok (.bool (e.retBool ⟨"WriteMemoryBuffer",
           [.bytes (name ++ [0]), .bytes (data ++ [0]),
            .int (wrapToI32 (data.length + 1))]⟩)),
         spoutWith h,
         [⟨"WriteMemoryBuffer",
           [.bytes (name ++ [0]), .bytes (data ++ [0]),
            .int (wrapToI32 (data.length + 1))]⟩]) := by
  simp [runOp, guarded, spoutWith, bindC, cstringNew, hn, hd, callBool]

/-- Claim C3 counterexample: `write_memory_buffer` does not use a checked
conversion for the byte length it passes across the boundary.  With a handle
held and a 2^31 - 1 byte payload (so 2^31 bytes with the nul terminator),
the call succeeds and passes the wrapped, negative length -2147483648 to the
engine instead of failing with a `NumericRange` error. -/
theorem C3_cex_write_wraps :
    (runOp (.write_memory_buffer [97] (List.replicate (2 ^ 31 - 1) 65))
        (spoutWith 1) eng0).1 = .ok (.bool false) ∧
    (runOp (.write_memory_buffer [97] (List.replicate (2 ^ 31 - 1) 65))
        (spoutWith 1) eng0).2.2
      = [⟨"WriteMemoryBuffer",
          [.bytes ([97] ++ [0]), .bytes (List.replicate (2 ^ 31 - 1) 65 ++ [0]),
           .int (-2147483648)]⟩] := by
  have h65 : firstNul (List.replicate (2 ^ 31 - 1) 65) = none :=
    firstNul_replicate _ 65 (by decide)
  have hrun := write_memory_buffer_run [97] (List.replicate (2 ^ 31 - 1) 65)
    1 eng0 rfl h65
  rw [hrun]
  refine ⟨rfl, ?_⟩
  simp only [List.length_replicate]
  norm_num [wrapToI32]

/-- Claim C3 (amended): the capacities passed by `read_memory_buffer`,
`get_sender`, `get_adapter_name` and `get_preferred_adapter_name` are
converted with explicit checked conversions: any capacity exceeding
`i32::MAX` fails with the `NumericRange`-kind error (`FfiTypeInto CInt`)
before any engine call.  The byte length passed by `write_memory_buffer`,
however, is converted with an unchecked `as` cast that wraps modulo 2^32 and
never fails. -/
theorem C3_checked_conversions :
    (∀ (name : Str) (n : Nat) (h : Nat) (e : Engine),
      firstNul name = none → 2147483647 < n →
      runOp (.read_memory_buffer name n) (spoutWith h) e
        = (.err (.FfiTypeInto .CInt
            "read_memory_buffer: out of range integral type conversion attempted"),
           spoutWith h, [])) ∧
    (∀ (index : Int) (n : Nat) (h : Nat) (e : Engine), 2147483647 < n →
      runOp (.get_sender index n) (spoutWith h) e
        = (.err (.FfiTypeInto .CInt
            "read_memory_buffer: out of range integral type conversion attempted"),
           spoutWith h, [])) ∧
    (∀ (index : Int) (n : Nat) (h : Nat) (e : Engine), 2147483647 < n →
      runOp (.get_adapter_name index n) (spoutWith h) e
        = (.err (.FfiTypeInto .CInt
            "read_memory_buffer: out of range integral type conversion attempted"),
           spoutWith h, [])) ∧
    (∀ (p : DxgiGpuPreference) (n : Nat) (h : Nat) (e : Engine), 2147483647 < n →
      runOp (.get_preferred_adapter_name p n) (spoutWith h) e
        = (.err (.FfiTypeInto .CInt
            "read_memory_buffer: out of range integral type conversion attempted"),
           spoutWith h, [])) ∧
    (∀ (name data : Str) (h : Nat) (e : Engine),
      firstNul name = none → firstNul data = none →
      runOp (.write_memory_buffer name data) (spoutWith h) e
        = (.ok (.bool (e.retBool ⟨"WriteMemoryBuffer",
             [.bytes (name ++ [0]), .bytes (data ++ [0]),
              .int (wrapToI32 (data.length + 1))]⟩)),
           spoutWith h,
           [⟨"WriteMemoryBuffer",
             [.bytes (name ++ [0]), .bytes (data ++ [0]),
              .int (wrapToI32 (data.length + 1))]⟩])) := by
  refine ⟨fun name n h e hn hgt => ?_, fun i n h e hgt => ?_,
    fun i n h e hgt => ?_, fun p n h e hgt => ?_, fun name data h e hn hd => ?_⟩
  · have h0 : ¬ n = 0 := by omega
    have hle : ¬ n ≤ 2147483647 := by omega
    simp [runOp, guarded, spoutWith, bindC, cstringNew, hn, h0,
      cstrFromBytesWithNul_buffer, i32TryFromUsize, hle]
  · have h0 : ¬ n = 0 := by omega
    have hle : ¬ n ≤ 2147483647 := by omega
    simp [runOp, guarded, spoutWith, bindC, h0,
      cstrFromBytesWithNul_buffer, i32TryFromUsize, hle]
  · have h0 : ¬ n = 0 := by omega
    have hle : ¬ n ≤ 2147483647 := by omega
    simp [runOp, guarded, spoutWith, bindC, h0,
      cstrFromBytesWithNul_buffer, i32TryFromUsize, hle]
  · have h0 : ¬ n = 0 := by omega
    have hle : ¬ n ≤ 2147483647 := by omega
    cases p <;>
      simp [runOp, guarded, spoutWith, bindC, tryIntoI32, h0,
        cstrFromBytesWithNul_buffer, i32TryFromUsize, hle]
  · exact write_memory_buffer_run name data h e hn hd

/-- Claim C3 witness: the checked-conversion theorem applied at
`read_memory_buffer` with capacity 2^31 (one past `i32::MAX`) and at
`write_memory_buffer` with one-byte name and data. -/
theorem C3_witness :
    firstNul [97] = none ∧ 2147483647 < 2 ^ 31 ∧
    runOp (.read_memory_buffer [97] (2 ^ 31)) (spoutWith 3) eng0
      = (.err (.FfiTypeInto .CInt
          "read_memory_buffer: out of range integral type conversion attempted"),
         spoutWith 3, []) ∧
    runOp (.write_memory_buffer [97] [98]) (spoutWith 3) eng0
      = (.ok (.bool (eng0.retBool ⟨"WriteMemoryBuffer",
           [.bytes [97, 0], .bytes [98, 0], .int (wrapToI32 2)]⟩)),
         spoutWith 3,
         [⟨"WriteMemoryBuffer",
           [.bytes [97, 0], .bytes [98, 0], .int (wrapToI32 2)]⟩]) :=
  ⟨rfl, by norm_num,
   C3_checked_conversions.1 [97] (2 ^ 31) 3 eng0 rfl (by norm_num),
   C3_checked_conversions.2.2.2.2 [97] [98] 3 eng0 rfl rfl⟩

/-- Claim C8: every outbound string-taking operation (every injection point at
which a caller string reaches `CString::new`), called while a handle is
held, fails on an embedded nul with the `StringEncode`-kind error —
`FfiTypeInto CString` whose context carries the operation's name — and no
engine call is issued. -/
theorem C8_embedded_nul_string_encode :
    ∀ (sl : StrSlot) (str : Str) (i : Nat) (h : Nat) (e : Engine),
      firstNul str = some i →
      runOp (mkOp sl str) (spoutWith h) e
        = (.err (.FfiTypeInto .CString (slotName sl ++ nulErrMsg i)),
           spoutWith h, []) := by
  intro sl str i h e hn
  cases sl <;>
    simp [mkOp, slotName, runOp, guarded, spoutWith, bindC, cstringNew, hn,
      firstNul, tryIntoI32]

/-- Claim C8 witness: the embedded-nul theorem applied at `set_sender_name` with
the one-byte string consisting of a nul. -/
theorem C8_witness :
    firstNul [0] = some 0 ∧
    runOp (mkOp .sl_set_sender_name [0]) (spoutWith 1) eng0
      = (.err (.FfiTypeInto .CString (slotName .sl_set_sender_name ++ nulErrMsg 0)),
         spoutWith 1, []) :=
  ⟨rfl, C8_embedded_nul_string_encode .sl_set_sender_name [0] 0 1 eng0 rfl⟩
